import Mathlib

/-!
Verification of the dropout-risk scoring engine and its batch-application
pipeline.  The definitions below are a shallow embedding of the TypeScript
source in `supabase/functions/predict-dropout-risk/index.ts` (risk feature
calculators, risk aggregator, request handling and batch persistence) and of
the CSV ingestion logic in `src/pages/Upload.tsx`.  JavaScript numbers are
modelled as exact rationals; `Math.round` is Mathlib's `round`
(`round x = ⌊x + 1/2⌋`, which agrees with JavaScript on all values arising
here).
-/

namespace DropoutRisk

/-- A JavaScript value of the optional `family_income` attribute: a number,
the SQL NULL of the nullable DB column materialized by `select('*')` as JS
`null` (how the deployed pipeline represents a missing income), or
`undefined` (the property absent, e.g. the optional argument omitted at a
direct call).  The distinction matters because the calculator's guard is
`familyIncome !== undefined`, which `null` passes. -/
inductive IncomeValue
  | num (q : ℚ)
  | null
  | undef
  deriving DecidableEq, Repr

/-- The `Student` interface from `index.ts`: the attributes consumed by the
risk calculators.  The optional `distance_from_home?` is `Option ℚ` (`none`
covers both `null` and `undefined`, which the truthiness guard treats alike);
`family_income?` is an `IncomeValue` because the code distinguishes `null`
from `undefined` there. -/
structure Student where
  attendance_percentage : ℚ
  cgpa : ℚ
  sgpa : ℚ
  fee_default : Bool
  disciplinary_actions : ℚ
  scholarship : Bool
  extracurriculars : ℚ
  semester : ℚ
  family_income : IncomeValue
  distance_from_home : Option ℚ
  hostel_accommodation : Bool
  previous_education_gap : Bool
  deriving DecidableEq, Repr

/-- The risk level values `'low' | 'medium' | 'high'`. -/
inductive RiskLevel
  | low
  | medium
  | high
  deriving DecidableEq, Repr

/-- The five reported impact values of `PredictionResult.prediction_factors`. -/
structure PredictionFactors where
  attendance_impact : ℚ
  academic_impact : ℚ
  financial_impact : ℚ
  behavioral_impact : ℚ
  engagement_impact : ℚ
  deriving DecidableEq, Repr

/-- The `PredictionResult` interface from `index.ts`. -/
structure PredictionResult where
  risk_score : ℚ
  risk_level : RiskLevel
  prediction_factors : PredictionFactors
  deriving DecidableEq, Repr

/-- Function `calculateAttendanceRisk` from `index.ts`. -/
def calculateAttendanceRisk (attendance : ℚ) : ℚ :=
  if attendance ≥ 90 then 0.1
  else if attendance ≥ 80 then 0.3
  else if attendance ≥ 70 then 0.5
  else if attendance ≥ 60 then 0.7
  else 0.9

/-- Function `calculateAcademicRisk` from `index.ts`. -/
def calculateAcademicRisk (cgpa sgpa : ℚ) : ℚ :=
  let avgGpa := (cgpa + sgpa) / 2
  if avgGpa ≥ 8.0 then 0.1
  else if avgGpa ≥ 7.0 then 0.2
  else if avgGpa ≥ 6.0 then 0.4
  else if avgGpa ≥ 5.0 then 0.6
  else 0.8

/-- Function `calculateFinancialRisk` from `index.ts`: additive contributions, clamped
by `Math.min(risk, 1.0)`.  The income guard is `familyIncome !== undefined`:
a JS `null` (the deployed representation of a missing income) passes it, and
`null < 200000` coerces `null` to 0 and holds — so a null income adds 0.3;
only `undefined` skips the income term. -/
def calculateFinancialRisk (feeDefault scholarship : Bool) (familyIncome : IncomeValue) : ℚ :=
  let risk : ℚ := 0
  let risk := risk + (if feeDefault then 0.6 else 0)
  let risk := risk + (if !scholarship then 0.2 else 0)
  let risk := risk + (match familyIncome with
    | .num income => if income < 200000 then 0.3 else if income < 500000 then 0.1 else 0
    | .null => 0.3
    | .undef => 0)
  min risk 1.0

/-- Function `calculateBehavioralRisk` from `index.ts` (strict `===` comparisons). -/
def calculateBehavioralRisk (disciplinaryActions : ℚ) : ℚ :=
  if disciplinaryActions = 0 then 0.1
  else if disciplinaryActions = 1 then 0.4
  else if disciplinaryActions = 2 then 0.6
  else 0.8

/-- Function `calculateEngagementRisk` from `index.ts`. -/
def calculateEngagementRisk (extracurriculars : ℚ) : ℚ :=
  if extracurriculars ≥ 3 then 0.1
  else if extracurriculars ≥ 2 then 0.2
  else if extracurriculars ≥ 1 then 0.3
  else 0.5

/-- Function `calculateDemographicRisk` from `index.ts`.  The source guard
`student.distance_from_home && student.distance_from_home > 500` equals
`distance > 500` for every present number (0 is falsy but also fails
`> 500`). -/
def calculateDemographicRisk (student : Student) : ℚ :=
  let risk : ℚ := 0
  let risk := risk + (match student.distance_from_home with
    | some d => if d > 500 then 0.2 else 0
    | none => 0)
  let risk := risk + (if student.hostel_accommodation then 0.1 else 0)
  let risk := risk + (if student.previous_education_gap then 0.3 else 0)
  let risk := risk + (if student.semester > 6 then 0.1 else 0)
  min risk 1.0

/-- The weighted sum `riskScore` computed inside `predictDropoutRisk`
(before rounding): weights 0.25, 0.20, 0.15, 0.15, 0.10, 0.15. -/
def rawRiskScore (student : Student) : ℚ :=
  calculateAttendanceRisk student.attendance_percentage * 0.25
  + calculateAcademicRisk student.cgpa student.sgpa * 0.20
  + calculateFinancialRisk student.fee_default student.scholarship student.family_income * 0.15
  + calculateBehavioralRisk student.disciplinary_actions * 0.15
  + calculateEngagementRisk student.extracurriculars * 0.10
  + calculateDemographicRisk student * 0.15

/-- The rounding `Math.round(x * 100) / 100` — round to 2 decimal places. -/
def roundTo2 (x : ℚ) : ℚ := (round (x * 100) : ℚ) / 100

/-- Function `predictDropoutRisk` from `index.ts`: the risk level is derived from the
unrounded `riskScore`; the returned `risk_score` and the five impact values
are rounded to 2 decimals. -/
def predictDropoutRisk (student : Student) : PredictionResult :=
  let riskScore := rawRiskScore student
  let riskLevel : RiskLevel :=
    if riskScore ≥ 0.7 then .high
    else if riskScore ≥ 0.4 then .medium
    else .low
  { risk_score := roundTo2 riskScore
    risk_level := riskLevel
    prediction_factors :=
      { attendance_impact := roundTo2 (calculateAttendanceRisk student.attendance_percentage)
        academic_impact := roundTo2 (calculateAcademicRisk student.cgpa student.sgpa)
        financial_impact :=
          roundTo2 (calculateFinancialRisk student.fee_default student.scholarship
            student.family_income)
        behavioral_impact := roundTo2 (calculateBehavioralRisk student.disciplinary_actions)
        engagement_impact := roundTo2 (calculateEngagementRisk student.extracurriculars) } }

/-- Value `x` is `k` tenths for some integer `lo ≤ k ≤ hi`. -/
def TenthsIn (x : ℚ) (lo hi : ℤ) : Prop := ∃ k : ℤ, x = k / 10 ∧ lo ≤ k ∧ k ≤ hi

lemma TenthsIn.le_bounds {x : ℚ} {lo hi : ℤ} (h : TenthsIn x lo hi) :
    (lo : ℚ) / 10 ≤ x ∧ x ≤ (hi : ℚ) / 10 := by
  obtain ⟨k, rfl, h1, h2⟩ := h
  have h1q : (lo : ℚ) ≤ k := by exact_mod_cast h1
  have h2q : (k : ℚ) ≤ hi := by exact_mod_cast h2
  constructor <;> linarith

lemma attendance_tenths (a : ℚ) : TenthsIn (calculateAttendanceRisk a) 1 9 := by
  unfold calculateAttendanceRisk TenthsIn
  split_ifs
  · exact ⟨1, by norm_num⟩
  · exact ⟨3, by norm_num⟩
  · exact ⟨5, by norm_num⟩
  · exact ⟨7, by norm_num⟩
  · exact ⟨9, by norm_num⟩

lemma academic_tenths (c s : ℚ) : TenthsIn (calculateAcademicRisk c s) 1 8 := by
  unfold calculateAcademicRisk TenthsIn
  dsimp only
  split_ifs
  · exact ⟨1, by norm_num⟩
  · exact ⟨2, by norm_num⟩
  · exact ⟨4, by norm_num⟩
  · exact ⟨6, by norm_num⟩
  · exact ⟨8, by norm_num⟩

lemma behavioral_tenths (d : ℚ) : TenthsIn (calculateBehavioralRisk d) 1 8 := by
  unfold calculateBehavioralRisk TenthsIn
  split_ifs
  · exact ⟨1, by norm_num⟩
  · exact ⟨4, by norm_num⟩
  · exact ⟨6, by norm_num⟩
  · exact ⟨8, by norm_num⟩

lemma engagement_tenths (e : ℚ) : TenthsIn (calculateEngagementRisk e) 1 5 := by
  unfold calculateEngagementRisk TenthsIn
  split_ifs
  · exact ⟨1, by norm_num⟩
  · exact ⟨2, by norm_num⟩
  · exact ⟨3, by norm_num⟩
  · exact ⟨5, by norm_num⟩

lemma financial_tenths (f s : Bool) (i : IncomeValue) :
    TenthsIn (calculateFinancialRisk f s i) 0 10 := by
  unfold calculateFinancialRisk TenthsIn
  cases i <;> dsimp only <;> rw [min_def] <;> split_ifs <;>
    first
      | (refine ⟨0, ?_⟩; norm_num; done)
      | (refine ⟨1, ?_⟩; norm_num; done)
      | (refine ⟨2, ?_⟩; norm_num; done)
      | (refine ⟨3, ?_⟩; norm_num; done)
      | (refine ⟨5, ?_⟩; norm_num; done)
      | (refine ⟨6, ?_⟩; norm_num; done)
      | (refine ⟨7, ?_⟩; norm_num; done)
      | (refine ⟨8, ?_⟩; norm_num; done)
      | (refine ⟨9, ?_⟩; norm_num; done)
      | (refine ⟨10, ?_⟩; norm_num; done)
      | (exfalso; norm_num at *)

lemma demographic_tenths (s : Student) : TenthsIn (calculateDemographicRisk s) 0 7 := by
  unfold calculateDemographicRisk TenthsIn
  rcases s with ⟨a, c, g, fd, d, sc, e, sem, fi, dist, ho, gap⟩
  cases dist <;> dsimp only <;> rw [min_def] <;> split_ifs <;>
    first
      | (refine ⟨0, ?_⟩; norm_num; done)
      | (refine ⟨1, ?_⟩; norm_num; done)
      | (refine ⟨2, ?_⟩; norm_num; done)
      | (refine ⟨3, ?_⟩; norm_num; done)
      | (refine ⟨4, ?_⟩; norm_num; done)
      | (refine ⟨5, ?_⟩; norm_num; done)
      | (refine ⟨6, ?_⟩; norm_num; done)
      | (refine ⟨7, ?_⟩; norm_num; done)
      | (exfalso; norm_num at *)

lemma roundTo2_of_tenths {x : ℚ} (k : ℤ) (hx : x = k / 10) : roundTo2 x = x := by
  subst hx
  have h : (k : ℚ) / 10 * 100 = ((k * 10 : ℤ) : ℚ) := by push_cast; ring
  rw [roundTo2, h, round_intCast]
  push_cast
  ring

lemma roundTo2_bounds {x : ℚ} {lo hi : ℤ} (h1 : (lo : ℚ) ≤ x * 100) (h2 : x * 100 ≤ (hi : ℚ)) :
    (lo : ℚ) / 100 ≤ roundTo2 x ∧ roundTo2 x ≤ (hi : ℚ) / 100 := by
  have hl : lo ≤ round (x * 100) := by
    rw [round_eq]
    calc lo = ⌊(lo : ℚ)⌋ := (Int.floor_intCast lo).symm
    _ ≤ ⌊x * 100 + 1 / 2⌋ := Int.floor_mono (by linarith)
  have hr : round (x * 100) ≤ hi := by
    rw [round_eq]
    calc ⌊x * 100 + 1 / 2⌋ ≤ ⌊(1 : ℚ) / 2 + hi⌋ := Int.floor_mono (by linarith)
    _ = ⌊(1 : ℚ) / 2⌋ + hi := Int.floor_add_int _ _
    _ = hi := by norm_num
  have hlq : (lo : ℚ) ≤ (round (x * 100) : ℚ) := by exact_mod_cast hl
  have hrq : ((round (x * 100) : ℚ)) ≤ (hi : ℚ) := by exact_mod_cast hr
  unfold roundTo2
  constructor <;> linarith

/-- Bounds of the unrounded weighted score: every calculator output is bounded,
so the weighted sum lies in `[0.07, 0.81]`. -/
lemma rawRiskScore_bounds (s : Student) :
    0.07 ≤ rawRiskScore s ∧ rawRiskScore s ≤ 0.81 := by
  obtain ⟨ha1, ha2⟩ := (attendance_tenths s.attendance_percentage).le_bounds
  obtain ⟨hc1, hc2⟩ := (academic_tenths s.cgpa s.sgpa).le_bounds
  obtain ⟨hf1, hf2⟩ := (financial_tenths s.fee_default s.scholarship s.family_income).le_bounds
  obtain ⟨hb1, hb2⟩ := (behavioral_tenths s.disciplinary_actions).le_bounds
  obtain ⟨he1, he2⟩ := (engagement_tenths s.extracurriculars).le_bounds
  obtain ⟨hd1, hd2⟩ := (demographic_tenths s).le_bounds
  unfold rawRiskScore
  norm_num at ha1 ha2 hc1 hc2 hf1 hf2 hb1 hb2 he1 he2 hd1 hd2 ⊢
  constructor <;> linarith

lemma impact_shape {x : ℚ} {lo hi : ℤ} (h : TenthsIn x lo hi) (h0 : 0 ≤ lo) (h10 : hi ≤ 10) :
    ∃ k : ℤ, 0 ≤ k ∧ k ≤ 100 ∧ roundTo2 x = k / 100 := by
  obtain ⟨k, hk, h1, h2⟩ := h
  refine ⟨10 * k, by omega, by omega, ?_⟩
  rw [roundTo2_of_tenths k hk, hk]
  push_cast
  ring

/-- C7: on all rationals (so in particular on [0,100]) the attendance risk
calculator is exactly the step function ≥90→0.1, ≥80→0.3, ≥70→0.5, ≥60→0.7,
else→0.9; its value lies in {0.1, 0.3, 0.5, 0.7, 0.9}; and it is monotonically
non-increasing: a1 ≤ a2 implies risk a2 ≤ risk a1. -/
theorem c7_attendance_step_monotone (a1 a2 : ℚ) (h : a1 ≤ a2) :
    (90 ≤ a1 → calculateAttendanceRisk a1 = 0.1)
    ∧ (80 ≤ a1 ∧ a1 < 90 → calculateAttendanceRisk a1 = 0.3)
    ∧ (70 ≤ a1 ∧ a1 < 80 → calculateAttendanceRisk a1 = 0.5)
    ∧ (60 ≤ a1 ∧ a1 < 70 → calculateAttendanceRisk a1 = 0.7)
    ∧ (a1 < 60 → calculateAttendanceRisk a1 = 0.9)
    ∧ calculateAttendanceRisk a1 ∈ ({0.1, 0.3, 0.5, 0.7, 0.9} : Set ℚ)
    ∧ calculateAttendanceRisk a2 ≤ calculateAttendanceRisk a1 := by
  unfold calculateAttendanceRisk
  refine ⟨?_, ?_, ?_, ?_, ?_, ?_, ?_⟩
  · intro h1; rw [if_pos (by linarith)]
  · rintro ⟨h1, h2⟩; rw [if_neg (by linarith), if_pos (by linarith)]
  · rintro ⟨h1, h2⟩; rw [if_neg (by linarith), if_neg (by linarith), if_pos (by linarith)]
  · rintro ⟨h1, h2⟩
    rw [if_neg (by linarith), if_neg (by linarith), if_neg (by linarith), if_pos (by linarith)]
  · intro h1
    rw [if_neg (by linarith), if_neg (by linarith), if_neg (by linarith), if_neg (by linarith)]
  · simp only [Set.mem_insert_iff, Set.mem_singleton_iff]
    split_ifs <;> norm_num
  · split_ifs <;> linarith

/-- C7 witness: instance at a1 = 50, a2 = 95. -/
theorem c7_attendance_step_monotone_witness :
    (50 : ℚ) ≤ 95
    ∧ ((90 ≤ (50 : ℚ) → calculateAttendanceRisk 50 = 0.1)
      ∧ (80 ≤ (50 : ℚ) ∧ (50 : ℚ) < 90 → calculateAttendanceRisk 50 = 0.3)
      ∧ (70 ≤ (50 : ℚ) ∧ (50 : ℚ) < 80 → calculateAttendanceRisk 50 = 0.5)
      ∧ (60 ≤ (50 : ℚ) ∧ (50 : ℚ) < 70 → calculateAttendanceRisk 50 = 0.7)
      ∧ ((50 : ℚ) < 60 → calculateAttendanceRisk 50 = 0.9)
      ∧ calculateAttendanceRisk 50 ∈ ({0.1, 0.3, 0.5, 0.7, 0.9} : Set ℚ)
      ∧ calculateAttendanceRisk 95 ≤ calculateAttendanceRisk 50) :=
  ⟨by norm_num, c7_attendance_step_monotone 50 95 (by norm_num)⟩

/-- Student attaining the minimal raw score 0.07 (a known income ≥ 500000
makes the financial risk 0). -/
def minStudent : Student := ⟨95, 9, 9, false, 0, true, 3, 1, IncomeValue.num 600000, none, false, false⟩

/-- Student attaining the maximal raw score 0.81. -/
def maxStudent : Student := ⟨0, 0, 0, true, 5, false, 0, 7, IncomeValue.num 0, some 1000, true, true⟩

/-- C9: the unrounded weighted score always lies in [0.07, 0.81]; both bounds
are attained; hence the persisted (rounded) risk score is never 0 or 1, and
the "high" band is reachable while scores above 0.81 are not. -/
theorem c9_raw_score_range (s : Student) :
    0.07 ≤ rawRiskScore s ∧ rawRiskScore s ≤ 0.81
    ∧ (predictDropoutRisk s).risk_score ≠ 0
    ∧ (predictDropoutRisk s).risk_score ≠ 1
    ∧ rawRiskScore minStudent = 0.07
    ∧ rawRiskScore maxStudent = 0.81
    ∧ (predictDropoutRisk maxStudent).risk_level = RiskLevel.high := by
  obtain ⟨h1, h2⟩ := rawRiskScore_bounds s
  have hsc : (predictDropoutRisk s).risk_score = roundTo2 (rawRiskScore s) := rfl
  have hb := @roundTo2_bounds (rawRiskScore s) 7 81 (by push_cast; linarith) (by push_cast; linarith)
  obtain ⟨hb1, hb2⟩ := hb
  norm_num at hb1 hb2
  refine ⟨h1, h2, ?_, ?_, ?_, ?_, ?_⟩
  · rw [hsc]; intro hzero; rw [hzero] at hb1; norm_num at hb1
  · rw [hsc]; intro hone; rw [hone] at hb2; norm_num at hb2
  · norm_num [rawRiskScore, calculateAttendanceRisk, calculateAcademicRisk,
      calculateFinancialRisk, calculateBehavioralRisk, calculateEngagementRisk,
      calculateDemographicRisk, minStudent]
  · norm_num [rawRiskScore, calculateAttendanceRisk, calculateAcademicRisk,
      calculateFinancialRisk, calculateBehavioralRisk, calculateEngagementRisk,
      calculateDemographicRisk, maxStudent]
  · norm_num [predictDropoutRisk, rawRiskScore, calculateAttendanceRisk, calculateAcademicRisk,
      calculateFinancialRisk, calculateBehavioralRisk, calculateEngagementRisk,
      calculateDemographicRisk, maxStudent]

/-- A student whose unrounded score is exactly 0.695: risk factors 0.9, 0.8,
1.0, 0.8, 0.1, 0.2.  The rounded score is 0.70 but the level (computed from
the unrounded 0.695) is "medium". -/
def boundaryStudent : Student :=
  ⟨50, 4, 4, true, 3, false, 3, 1, IncomeValue.num 100000, some 600, false, false⟩

/-- C1 counterexample: the returned (rounded) risk_score is 0.70, yet the
returned risk_level is not "high" — so "high iff risk_score ≥ 0.70" fails for
the rounded score the Aggregator outputs. -/
theorem c1_counterexample :
    (predictDropoutRisk boundaryStudent).risk_score = 0.7
    ∧ (predictDropoutRisk boundaryStudent).risk_level ≠ RiskLevel.high := by
  norm_num [predictDropoutRisk, rawRiskScore, calculateAttendanceRisk, calculateAcademicRisk,
    calculateFinancialRisk, calculateBehavioralRisk, calculateEngagementRisk,
    calculateDemographicRisk, roundTo2, boundaryStudent, round_eq]
  decide

/-- C1 (amended): the returned risk_score lies in [0,1], and the risk level
bands hold for the UNROUNDED score (the code discretizes `riskScore` before
rounding): high iff unrounded ≥ 0.70, medium iff 0.40 ≤ unrounded < 0.70,
low iff unrounded < 0.40. -/
theorem c1_score_range_and_level_bands (s : Student) :
    0 ≤ (predictDropoutRisk s).risk_score
    ∧ (predictDropoutRisk s).risk_score ≤ 1
    ∧ ((predictDropoutRisk s).risk_level = RiskLevel.high ↔ 0.7 ≤ rawRiskScore s)
    ∧ ((predictDropoutRisk s).risk_level = RiskLevel.medium
        ↔ 0.4 ≤ rawRiskScore s ∧ rawRiskScore s < 0.7)
    ∧ ((predictDropoutRisk s).risk_level = RiskLevel.low ↔ rawRiskScore s < 0.4) := by
  obtain ⟨h1, h2⟩ := rawRiskScore_bounds s
  have hsc : (predictDropoutRisk s).risk_score = roundTo2 (rawRiskScore s) := rfl
  have hlv : (predictDropoutRisk s).risk_level
      = (if rawRiskScore s ≥ 0.7 then RiskLevel.high
        else if rawRiskScore s ≥ 0.4 then RiskLevel.medium else RiskLevel.low) := rfl
  have hb := @roundTo2_bounds (rawRiskScore s) 7 81 (by push_cast; linarith) (by push_cast; linarith)
  obtain ⟨hb1, hb2⟩ := hb
  norm_num at hb1 hb2
  rw [hsc, hlv]
  refine ⟨by linarith, by linarith, ?_, ?_, ?_⟩ <;> split_ifs <;> constructor <;>
    first
      | (intro hx; exact absurd hx (by decide))
      | (intro hx; rfl)
      | (intro hx; constructor <;> linarith)
      | (intro hx; linarith)

/-- The weighted sum of the five reported impact values at the weights the
claim names (0.25, 0.20, 0.15, 0.15, 0.10): this is the spec side of the
claim, to be compared with the risk score the code computes. -/
def claimedFiveFactorScore (p : PredictionResult) : ℚ :=
  p.prediction_factors.attendance_impact * 0.25
  + p.prediction_factors.academic_impact * 0.20
  + p.prediction_factors.financial_impact * 0.15
  + p.prediction_factors.behavioral_impact * 0.15
  + p.prediction_factors.engagement_impact * 0.10

/-- A student with nonzero demographic risk (semester 7 contributes 0.1). -/
def c2Student : Student := ⟨68.2, 5.9, 6.1, true, 2, false, 0, 7, IncomeValue.undef, none, false, false⟩

/-- C2 counterexample: the weighted sum of the five reported impacts is 0.515,
but the returned risk_score is 0.53 — the demographic term (0.1 · 0.15) is in
the score but not in the reported factors. -/
theorem c2_counterexample :
    claimedFiveFactorScore (predictDropoutRisk c2Student)
      ≠ (predictDropoutRisk c2Student).risk_score := by
  norm_num [predictDropoutRisk, rawRiskScore, calculateAttendanceRisk, calculateAcademicRisk,
    calculateFinancialRisk, calculateBehavioralRisk, calculateEngagementRisk,
    calculateDemographicRisk, roundTo2, claimedFiveFactorScore, c2Student, round_eq]

/-- C2 (amended): the prediction factors are exactly five impact values, each
an integer number of hundredths in [0,1]; their weighted sum PLUS the weighted
demographic risk (0.15·demographic) equals the unrounded score, whose
2-decimal rounding is the returned risk_score. -/
theorem c2_five_factors_weighted_sum (s : Student) :
    (∃ k : ℤ, 0 ≤ k ∧ k ≤ 100
      ∧ (predictDropoutRisk s).prediction_factors.attendance_impact = k / 100)
    ∧ (∃ k : ℤ, 0 ≤ k ∧ k ≤ 100
      ∧ (predictDropoutRisk s).prediction_factors.academic_impact = k / 100)
    ∧ (∃ k : ℤ, 0 ≤ k ∧ k ≤ 100
      ∧ (predictDropoutRisk s).prediction_factors.financial_impact = k / 100)
    ∧ (∃ k : ℤ, 0 ≤ k ∧ k ≤ 100
      ∧ (predictDropoutRisk s).prediction_factors.behavioral_impact = k / 100)
    ∧ (∃ k : ℤ, 0 ≤ k ∧ k ≤ 100
      ∧ (predictDropoutRisk s).prediction_factors.engagement_impact = k / 100)
    ∧ claimedFiveFactorScore (predictDropoutRisk s)
        + calculateDemographicRisk s * 0.15 = rawRiskScore s
    ∧ (predictDropoutRisk s).risk_score = roundTo2 (rawRiskScore s) := by
  obtain ⟨ka, hka, hka1, hka2⟩ := attendance_tenths s.attendance_percentage
  obtain ⟨kc, hkc, hkc1, hkc2⟩ := academic_tenths s.cgpa s.sgpa
  obtain ⟨kf, hkf, hkf1, hkf2⟩ := financial_tenths s.fee_default s.scholarship s.family_income
  obtain ⟨kb, hkb, hkb1, hkb2⟩ := behavioral_tenths s.disciplinary_actions
  obtain ⟨ke, hke, hke1, hke2⟩ := engagement_tenths s.extracurriculars
  have ea : (predictDropoutRisk s).prediction_factors.attendance_impact
      = calculateAttendanceRisk s.attendance_percentage := roundTo2_of_tenths ka hka
  have ec : (predictDropoutRisk s).prediction_factors.academic_impact
      = calculateAcademicRisk s.cgpa s.sgpa := roundTo2_of_tenths kc hkc
  have ef : (predictDropoutRisk s).prediction_factors.financial_impact
      = calculateFinancialRisk s.fee_default s.scholarship s.family_income :=
    roundTo2_of_tenths kf hkf
  have eb : (predictDropoutRisk s).prediction_factors.behavioral_impact
      = calculateBehavioralRisk s.disciplinary_actions := roundTo2_of_tenths kb hkb
  have ee : (predictDropoutRisk s).prediction_factors.engagement_impact
      = calculateEngagementRisk s.extracurriculars := roundTo2_of_tenths ke hke
  refine ⟨impact_shape ⟨ka, hka, hka1, hka2⟩ (by omega) (by omega),
    impact_shape ⟨kc, hkc, hkc1, hkc2⟩ (by omega) (by omega),
    impact_shape ⟨kf, hkf, hkf1, hkf2⟩ (by omega) (by omega),
    impact_shape ⟨kb, hkb, hkb1, hkb2⟩ (by omega) (by omega),
    impact_shape ⟨ke, hke, hke1, hke2⟩ (by omega) (by omega), ?_, rfl⟩
  unfold claimedFiveFactorScore rawRiskScore
  rw [ea, ec, ef, eb, ee]

/-- C3: the claim states the intended behavior, but the code mishandles the
deployed representation of a missing family income.  Students reach the
calculator via `select('*')` on a nullable income column, so a missing income
arrives as JS `null`, not `undefined`; `null` passes the `!== undefined`
guard and `null < 200000` coerces `null` to 0 and holds, so a missing income
adds 0.3 instead of contributing nothing.  At the failing input (fee default,
no scholarship, missing income) the financial risk is 1.0, while an income
whose term contributes nothing (≥ 500000) gives 0.8 — the two differ, refuting
"missing income contributes 0".  Only the distance half of the claim holds:
a missing distance is falsy and contributes 0, the same as a distance
≤ 500. -/
theorem c3_missing_income_code_bug :
    calculateFinancialRisk true false IncomeValue.null = 1
    ∧ calculateFinancialRisk true false (IncomeValue.num 600000) = 0.8
    ∧ calculateFinancialRisk true false IncomeValue.null
        ≠ calculateFinancialRisk true false (IncomeValue.num 600000)
    ∧ calculateFinancialRisk true false IncomeValue.undef = 0.8
    ∧ calculateDemographicRisk
        { (⟨80, 7, 7, false, 0, true, 2, 3, IncomeValue.undef, none, true, false⟩ : Student) with
          distance_from_home := none }
      = calculateDemographicRisk
        { (⟨80, 7, 7, false, 0, true, 2, 3, IncomeValue.undef, none, true, false⟩ : Student) with
          distance_from_home := some 100 } := by
  norm_num [calculateFinancialRisk, calculateDemographicRisk]

/-- The concrete scenario of C6: attendance 68.2, cgpa 5.9, sgpa 6.1,
fee default, 2 disciplinary actions, no scholarship, 0 extracurriculars,
semester 7, no income, no distance, no hostel, no gap. -/
def scenario2 : Student := ⟨68.2, 5.9, 6.1, true, 2, false, 0, 7, IncomeValue.undef, none, false, false⟩

/-- C6 counterexample: on this input the code's attendance risk is not 0.5
(68.2 falls in the ≥60 band, which maps to 0.7), the academic risk is not 0.6
(avg 6.0 falls in the ≥6.0 band, which maps to 0.4), and the score is not
0.52. -/
theorem c6_counterexample :
    calculateAttendanceRisk (68.2 : ℚ) ≠ 0.5
    ∧ calculateAcademicRisk 5.9 6.1 ≠ 0.6
    ∧ (predictDropoutRisk scenario2).risk_score ≠ 0.52 := by
  norm_num [predictDropoutRisk, rawRiskScore, calculateAttendanceRisk, calculateAcademicRisk,
    calculateFinancialRisk, calculateBehavioralRisk, calculateEngagementRisk,
    calculateDemographicRisk, roundTo2, scenario2, round_eq]

/-- C6 (amended): on the scenario input the calculators return attendance 0.7,
academic 0.4, financial 0.8, behavioral 0.6, engagement 0.5, demographic 0.1,
and the Aggregator returns score 0.53 with level "medium". -/
theorem c6_scenario2_values :
    calculateAttendanceRisk (68.2 : ℚ) = 0.7
    ∧ calculateAcademicRisk 5.9 6.1 = 0.4
    ∧ calculateFinancialRisk true false IncomeValue.undef = 0.8
    ∧ calculateBehavioralRisk 2 = 0.6
    ∧ calculateEngagementRisk 0 = 0.5
    ∧ calculateDemographicRisk scenario2 = 0.1
    ∧ (predictDropoutRisk scenario2).risk_score = 0.53
    ∧ (predictDropoutRisk scenario2).risk_level = RiskLevel.medium := by
  norm_num [predictDropoutRisk, rawRiskScore, calculateAttendanceRisk, calculateAcademicRisk,
    calculateFinancialRisk, calculateBehavioralRisk, calculateEngagementRisk,
    calculateDemographicRisk, roundTo2, scenario2, round_eq]

/-! ### The request handler (`serve` in `index.ts`)

The handler body is modelled as a function of the parsed request, the student
table, and an oracle saying which batch upserts fail.  Store interactions are
recorded as a trace of operations. -/

/-- The fields of the request body the handler reads:
`const { studentIds, processNewStudents } = await req.json()`.  An absent or
falsy `processNewStudents` is `false`; an absent `studentIds` is `none`. -/
structure Request where
  processNewStudents : Bool
  studentIds : Option (List String)
  deriving DecidableEq, Repr

/-- A row of the `students` table: its id, the attributes the predictor reads,
and the (nullable) stored risk score. -/
structure StudentRow where
  id : String
  fields : Student
  risk_score : Option ℚ
  deriving DecidableEq, Repr

/-- The tuple upserted for one student. -/
structure StudentUpdate where
  id : String
  risk_score : ℚ
  risk_level : RiskLevel
  prediction_factors : PredictionFactors
  deriving DecidableEq, Repr

/-- One interaction with the record store. -/
inductive StoreOp
  | selectNullRisk
  | selectByIds (ids : List String)
  | upsert (updates : List StudentUpdate)
  deriving DecidableEq, Repr

/-- The response of the handler: either the success summary
`{message, processedCount, totalCount}` or an error response with its HTTP
status. -/
inductive ServeResult
  | ok (message : String) (processedCount totalCount : ℕ)
  | invalidRequest (status : ℕ) (error : String)
  deriving DecidableEq, Repr

/-- The selection phase of the handler: `if (processNewStudents) … else if
(studentIds && studentIds.length > 0) … else` return the 400 response
(modelled as `none`). -/
def selectStudents (req : Request) (db : List StudentRow) :
    Option (List StudentRow × StoreOp) :=
  if req.processNewStudents then
    some (db.filter (fun r => r.risk_score.isNone), StoreOp.selectNullRisk)
  else
    match req.studentIds with
    | some ids =>
        if ids.length > 0 then some (db.filter (fun r => ids.contains r.id), StoreOp.selectByIds ids)
        else none
    | none => none

/-- The loop `predictions.push(...)` collecting an id and a prediction for every selected
student. -/
def runPredictions (students : List StudentRow) : List (String × PredictionResult) :=
  students.map (fun s => (s.id, predictDropoutRisk s.fields))

/-- The batch partition produced by `for (let i = 0; i < predictions.length;
i += batchSize)` with `batchSize = 50`. -/
def chunks50 {α : Type} : List α → List (List α)
  | [] => []
  | x :: xs => ((x :: xs).take 50) :: chunks50 ((x :: xs).drop 50)
  termination_by l => l.length
  decreasing_by simp; omega

/-- The update record built for one prediction. -/
def toUpdate (p : String × PredictionResult) : StudentUpdate :=
  { id := p.1
    risk_score := p.2.risk_score
    risk_level := p.2.risk_level
    prediction_factors := p.2.prediction_factors }

/-- The persistence loop: each batch is upserted in order; a failing batch
(`fails k`) is logged and skipped — `updatedCount` grows only on success, and
the loop continues with the next batch.  Returns the final `updatedCount` and
the trace of upsert attempts. -/
def persistBatches (fails : ℕ → Bool) :
    List (List (String × PredictionResult)) → ℕ → ℕ × List StoreOp
  | [], _ => (0, [])
  | batch :: rest, k =>
    let tailResult := persistBatches fails rest (k + 1)
    ((if fails k then 0 else batch.length) + tailResult.1,
      StoreOp.upsert (batch.map toUpdate) :: tailResult.2)

/-- The success message `Successfully processed ${updatedCount} students`. -/
def processedMessage (updatedCount : ℕ) : String :=
  s!"Successfully processed {updatedCount} students"

/-- The whole handler body: select, predict, persist in batches of 50, and
report `{message, processedCount, totalCount}`; on a missing selection mode,
the 400 error response with no store interaction. -/
def serve (req : Request) (db : List StudentRow) (fails : ℕ → Bool) :
    ServeResult × List StoreOp :=
  match selectStudents req db with
  | none => (ServeResult.invalidRequest 400 "No students specified for prediction", [])
  | some (students, selOp) =>
    let predictions := runPredictions students
    let persisted := persistBatches fails (chunks50 predictions) 0
    (ServeResult.ok (processedMessage persisted.1) persisted.1 students.length,
      selOp :: persisted.2)

/-- The number of records in successfully persisted batches: the summed sizes
of the batches whose index the failure oracle accepts. -/
def successTotal {α : Type} (fails : ℕ → Bool) (batches : List (List α)) (k0 : ℕ) : ℕ :=
  (((List.enumFrom k0 batches).filter (fun p => !fails p.1)).map (fun p => p.2.length)).sum

lemma chunks50_eq_nil_iff {α : Type} (l : List α) : chunks50 l = [] ↔ l = [] := by
  cases l <;> simp [chunks50]

lemma chunks50_flatten {α : Type} (l : List α) : (chunks50 l).flatten = l := by
  induction l using chunks50.induct with
  | case1 => simp [chunks50]
  | case2 x xs ih => rw [chunks50, List.flatten_cons, ih, List.take_append_drop]

lemma chunks50_mem {α : Type} {l b : List α} (hb : b ∈ chunks50 l) :
    b ≠ [] ∧ b.length ≤ 50 := by
  induction l using chunks50.induct with
  | case1 => simp [chunks50] at hb
  | case2 x xs ih =>
    rw [chunks50] at hb
    rcases List.mem_cons.mp hb with h | h
    · subst h
      refine ⟨by simp, ?_⟩
      exact List.length_take_le 50 (x :: xs)
    · exact ih h

lemma chunks50_dropLast {α : Type} (l : List α) :
    ∀ b ∈ (chunks50 l).dropLast, b.length = 50 := by
  induction l using chunks50.induct with
  | case1 => simp [chunks50]
  | case2 x xs ih =>
    intro b hb
    rw [chunks50] at hb
    rcases hrest : chunks50 ((x :: xs).drop 50) with _ | ⟨c, cs⟩
    · rw [hrest] at hb
      simp at hb
    · rw [hrest] at hb
      rw [List.dropLast_cons_of_ne_nil (by simp)] at hb
      rcases List.mem_cons.mp hb with h | h
      · subst h
        have hne : (x :: xs).drop 50 ≠ [] := by
          intro hcon
          rw [hcon] at hrest
          simp [chunks50] at hrest
        have hlen : 50 < (x :: xs).length := by
          by_contra hcon
          exact hne (List.drop_eq_nil_of_le (by omega))
        rw [List.length_take]
        exact min_eq_left (le_of_lt hlen)
      · exact ih b (by rw [hrest]; exact h)

lemma persistBatches_ops (fails : ℕ → Bool)
    (batches : List (List (String × PredictionResult))) (k : ℕ) :
    (persistBatches fails batches k).2
      = batches.map (fun b => StoreOp.upsert (b.map toUpdate)) := by
  induction batches generalizing k with
  | nil => rfl
  | cons b rest ih => simp [persistBatches, ih]

lemma persistBatches_count (fails : ℕ → Bool)
    (batches : List (List (String × PredictionResult))) (k : ℕ) :
    (persistBatches fails batches k).1 = successTotal fails batches k := by
  induction batches generalizing k with
  | nil => rfl
  | cons b rest ih =>
    simp only [persistBatches, successTotal, List.enumFrom, List.filter]
    cases hf : fails k <;> simp [ih, successTotal, hf]

/-- C4: every prediction run reaching the persistence phase partitions the
updates into consecutive batches of at most 50 (all but the last exactly 50,
none empty, together the whole list); every batch is attempted exactly once,
in order, whatever the failure oracle says (a failed batch is skipped, not
retried, and later batches are still attempted); the processed count is the
summed size of the successful batches; and the handler still returns the
success summary with totalCount = number of selected records and
processedCount = records in successfully persisted batches — a batch failure
never propagates as an overall failure. -/
theorem c4_batch_persistence (preds : List (String × PredictionResult)) (fails : ℕ → Bool)
    (req : Request) (db : List StudentRow) (pop : List StudentRow) (selOp : StoreOp)
    (hsel : selectStudents req db = some (pop, selOp)) :
    (chunks50 preds).flatten = preds
    ∧ (∀ b ∈ chunks50 preds, b ≠ [] ∧ b.length ≤ 50)
    ∧ (∀ b ∈ (chunks50 preds).dropLast, b.length = 50)
    ∧ (persistBatches fails (chunks50 preds) 0).2
        = (chunks50 preds).map (fun b => StoreOp.upsert (b.map toUpdate))
    ∧ (persistBatches fails (chunks50 preds) 0).1 = successTotal fails (chunks50 preds) 0
    ∧ (serve req db fails).1
        = ServeResult.ok
            (processedMessage (persistBatches fails (chunks50 (runPredictions pop)) 0).1)
            ((persistBatches fails (chunks50 (runPredictions pop)) 0).1)
            pop.length := by
  refine ⟨chunks50_flatten preds, fun b hb => chunks50_mem hb, chunks50_dropLast preds,
    persistBatches_ops fails (chunks50 preds) 0, persistBatches_count fails (chunks50 preds) 0, ?_⟩
  unfold serve
  rw [hsel]

/-- C4 witness: instance with an empty prediction list, a failure oracle that
always fails, and the null-risk selection on an empty table. -/
theorem c4_batch_persistence_witness :
    selectStudents ⟨true, none⟩ [] = some ([], StoreOp.selectNullRisk)
    ∧ ((chunks50 ([] : List (String × PredictionResult))).flatten = []
      ∧ (∀ b ∈ chunks50 ([] : List (String × PredictionResult)), b ≠ [] ∧ b.length ≤ 50)
      ∧ (∀ b ∈ (chunks50 ([] : List (String × PredictionResult))).dropLast, b.length = 50)
      ∧ (persistBatches (fun _ => true) (chunks50 ([] : List (String × PredictionResult))) 0).2
          = (chunks50 ([] : List (String × PredictionResult))).map
              (fun b => StoreOp.upsert (b.map toUpdate))
      ∧ (persistBatches (fun _ => true) (chunks50 ([] : List (String × PredictionResult))) 0).1
          = successTotal (fun _ => true) (chunks50 ([] : List (String × PredictionResult))) 0
      ∧ (serve ⟨true, none⟩ [] (fun _ => true)).1
          = ServeResult.ok
              (processedMessage
                (persistBatches (fun _ => true) (chunks50 (runPredictions [])) 0).1)
              ((persistBatches (fun _ => true) (chunks50 (runPredictions [])) 0).1)
              (List.length ([] : List StudentRow))) :=
  ⟨rfl, c4_batch_persistence [] (fun _ => true) ⟨true, none⟩ [] [] StoreOp.selectNullRisk rfl⟩

/-- C5: with neither selection mode (flag false and ids absent, or flag false
and an explicit empty list) the handler returns the 400 InvalidRequest
response and performs no store operation at all. -/
theorem c5_invalid_request (req : Request) (db : List StudentRow) (fails : ℕ → Bool)
    (hflag : req.processNewStudents = false)
    (hids : req.studentIds = none ∨ req.studentIds = some []) :
    serve req db fails
      = (ServeResult.invalidRequest 400 "No students specified for prediction", []) := by
  obtain ⟨pns, ids⟩ := req
  simp only at hflag
  subst hflag
  rcases hids with h | h <;> simp only at h <;> subst h <;> rfl

/-- C5 witness: instances at both invalid request shapes, on a nonempty
table. -/
theorem c5_invalid_request_witness :
    (Request.mk false none).processNewStudents = false
    ∧ ((Request.mk false none).studentIds = none
      ∨ (Request.mk false none).studentIds = some [])
    ∧ serve (Request.mk false none) [] (fun _ => false)
        = (ServeResult.invalidRequest 400 "No students specified for prediction", [])
    ∧ serve (Request.mk false (some [])) [] (fun _ => false)
        = (ServeResult.invalidRequest 400 "No students specified for prediction", []) :=
  ⟨rfl, Or.inl rfl,
    c5_invalid_request (Request.mk false none) [] (fun _ => false) rfl (Or.inl rfl),
    c5_invalid_request (Request.mk false (some [])) [] (fun _ => false) rfl (Or.inr rfl)⟩

/-- C10: when both selection modes are supplied, the truthy
`processNewStudents` flag wins: the handler behaves identically for any two
`studentIds` values, the selected population is exactly the rows with null
risk score, and no per-id selection is ever issued to the store. -/
theorem c10_flag_precedence (ids1 ids2 : Option (List String)) (db : List StudentRow)
    (fails : ℕ → Bool) :
    serve ⟨true, ids1⟩ db fails = serve ⟨true, ids2⟩ db fails
    ∧ selectStudents ⟨true, ids1⟩ db
      = some (db.filter (fun r => r.risk_score.isNone), StoreOp.selectNullRisk)
    ∧ ∀ l : List String, StoreOp.selectByIds l ∉ (serve ⟨true, ids1⟩ db fails).2 := by
  refine ⟨rfl, rfl, ?_⟩
  intro l
  show StoreOp.selectByIds l ∉ StoreOp.selectNullRisk ::
    (persistBatches fails (chunks50 (runPredictions (db.filter (fun r => r.risk_score.isNone)))) 0).2
  rw [persistBatches_ops]
  simp

/-- C10 witness: instance with a nonempty ignored id list on a one-row
table. -/
theorem c10_flag_precedence_witness :
    serve ⟨true, some ["a"]⟩ [] (fun _ => false) = serve ⟨true, none⟩ [] (fun _ => false)
    ∧ selectStudents ⟨true, some ["a"]⟩ []
      = some (List.filter (fun r => r.risk_score.isNone) [], StoreOp.selectNullRisk)
    ∧ ∀ l : List String,
        StoreOp.selectByIds l ∉ (serve ⟨true, some ["a"]⟩ [] (fun _ => false)).2 :=
  c10_flag_precedence (some ["a"]) none [] (fun _ => false)

/-! ### CSV ingestion (`parseCSVContent` in `Upload.tsx`) -/

/-- A converted cell value: string, number or boolean. -/
inductive CellValue
  | str (s : String)
  | num (q : ℚ)
  | flag (b : Bool)
  deriving DecidableEq, Repr

/-- JavaScript truthiness of a stored cell value ("" and 0 and false are
falsy). -/
def truthyCell : CellValue → Bool
  | .str s => s != ""
  | .num q => q != 0
  | .flag b => b

/-- The `headerMap` table of `parseCSVContent`: recognized (lowercased) header
spellings and their canonical field names. -/
def headerMap (h : String) : Option String :=
  if h = "name" then some "name"
  else if h = "email" then some "email"
  else if h = "student_id" then some "student_id"
  else if h = "studentid" then some "student_id"
  else if h = "department" then some "department"
  else if h = "semester" then some "semester"
  else if h = "gender" then some "gender"
  else if h = "attendance" then some "attendance_percentage"
  else if h = "attendance_percentage" then some "attendance_percentage"
  else if h = "cgpa" then some "cgpa"
  else if h = "sgpa" then some "sgpa"
  else if h = "fee_default" then some "fee_default"
  else if h = "feedefault" then some "fee_default"
  else if h = "disciplinary_actions" then some "disciplinary_actions"
  else if h = "disciplinaryactions" then some "disciplinary_actions"
  else if h = "scholarship" then some "scholarship"
  else if h = "extracurriculars" then some "extracurriculars"
  else if h = "family_income" then some "family_income"
  else if h = "familyincome" then some "family_income"
  else if h = "distance_from_home" then some "distance_from_home"
  else if h = "distancefromhome" then some "distance_from_home"
  else if h = "hostel_accommodation" then some "hostel_accommodation"
  else if h = "hostelaccommodation" then some "hostel_accommodation"
  else if h = "previous_education_gap" then some "previous_education_gap"
  else if h = "previouseducationgap" then some "previous_education_gap"
  else none

/-- Numeric value of a digit character. -/
def digitVal (c : Char) : ℕ := c.toNat - 48

/-- JavaScript `parseInt(v)` modelled on nonnegative decimal inputs: the value of the
longest leading digit run, `none` (NaN) when there is none. -/
def jsParseInt (v : String) : Option ℚ :=
  let ds := v.toList.takeWhile Char.isDigit
  if ds = [] then none
  else some ((ds.foldl (fun a c => 10 * a + digitVal c) 0 : ℕ) : ℚ)

/-- JavaScript `parseFloat(v)` modelled on nonnegative decimal literals: leading digits,
optionally a dot and further digits; `none` (NaN) when no digit is read. -/
def jsParseFloat (v : String) : Option ℚ :=
  let cs := v.toList
  let intPart := cs.takeWhile Char.isDigit
  let fracPart := match cs.dropWhile Char.isDigit with
    | '.' :: r => r.takeWhile Char.isDigit
    | _ => []
  if intPart = [] ∧ fracPart = [] then none
  else
    some (((intPart.foldl (fun a c => 10 * a + digitVal c) 0 : ℕ) : ℚ)
      + ((fracPart.foldl (fun a c => 10 * a + digitVal c) 0 : ℕ) : ℚ)
        / (10 : ℚ) ^ fracPart.length)

/-- The per-field type conversions of `parseCSVContent`: ints and floats fall
back to 0 on parse failure, booleans accept "true"/"yes"/"1", gender values
outside the three recognized ones are coerced to "other"; all other fields stay
strings. -/
def convertCell (field v : String) : CellValue :=
  if field ∈ ["semester", "disciplinary_actions", "extracurriculars"] then
    .num ((jsParseInt v).getD 0)
  else if field ∈ ["attendance_percentage", "cgpa", "sgpa", "family_income",
      "distance_from_home"] then
    .num ((jsParseFloat v).getD 0)
  else if field ∈ ["fee_default", "scholarship", "hostel_accommodation",
      "previous_education_gap"] then
    .flag (v.toLower == "true" || v.toLower == "yes" || v == "1")
  else if field = "gender" then
    .str (if v.toLower ∈ ["male", "female", "other"] then v.toLower else "other")
  else .str v

/-- Assignment `student[mappedField] = value`: functional record update.  `List.lookup`
returns the most recent assignment, matching JavaScript property semantics. -/
def setField (st : List (String × CellValue)) (f : String) (v : CellValue) :
    List (String × CellValue) :=
  (f, v) :: st

/-- The body of `headers.forEach((header, index) => …)`: a recognized header
whose cell is present and nonempty (truthy) assigns the converted value. -/
def assignCell (values : List String) (st : List (String × CellValue)) (p : ℕ × String) :
    List (String × CellValue) :=
  match headerMap p.2 with
  | some field =>
    let v := values.getD p.1 ""
    if v ≠ "" then setField st field (convertCell field v) else st
  | none => st

/-- The mapped student record built from one data row. -/
def buildStudent (headers values : List String) : List (String × CellValue) :=
  (headers.enum).foldl (assignCell values) []

/-- The four required fields of the validation
`if (student.name && student.email && student.student_id && student.department)`. -/
def requiredFields : List String := ["name", "email", "student_id", "department"]

/-- The required-field validation: every required field is bound to a truthy
value. -/
def requiredTruthy (st : List (String × CellValue)) : Bool :=
  requiredFields.all (fun f => ((List.lookup f st).map truthyCell).getD false)

/-- One data row of `parseCSVContent`: split on commas and trim; the row is
skipped (`none`) when it has fewer fields than the header row
(`values.length < headers.length → continue`) or when the required-field
validation fails. -/
def parseRow (headers : List String) (line : String) :
    Option (List (String × CellValue)) :=
  let values := (line.splitOn ",").map String.trim
  if values.length < headers.length then none
  else
    let student := buildStudent headers values
    if requiredTruthy student then some student else none

/-- Function `parseCSVContent`: nonblank lines, a header row plus at least one data
row, lowercased trimmed header cells, and exactly the rows `parseRow`
accepts. -/
def parseCSVContent (content : String) :
    Except String (List (List (String × CellValue))) :=
  let lines := (content.splitOn "\n").filter (fun l => l.trim != "")
  match lines with
  | [] => .error "File must contain header row and at least one data row"
  | [_] => .error "File must contain header row and at least one data row"
  | header :: rows =>
    let headers := (header.splitOn ",").map (fun h => h.trim.toLower)
    .ok (rows.filterMap (parseRow headers))

/-- The predicate "required field `f` is empty after header mapping": the built record does
not bind `f` to a nonempty string. -/
def FieldEmptyAfterMapping (st : List (String × CellValue)) (f : String) : Prop :=
  ¬ ∃ v : String, List.lookup f st = some (.str v) ∧ v ≠ ""

lemma convertCell_required (f v : String) (hf : f ∈ requiredFields) :
    convertCell f v = .str v := by
  simp only [requiredFields, List.mem_cons, List.not_mem_nil, or_false] at hf
  rcases hf with rfl | rfl | rfl | rfl <;> rfl

lemma assign_fold_required (values : List String) (f : String) (hf : f ∈ requiredFields)
    (ps : List (ℕ × String)) (st : List (String × CellValue))
    (h : List.lookup f st = none ∨ ∃ v : String, List.lookup f st = some (.str v) ∧ v ≠ "") :
    List.lookup f (ps.foldl (assignCell values) st) = none
    ∨ ∃ v : String, List.lookup f (ps.foldl (assignCell values) st) = some (.str v) ∧ v ≠ "" := by
  induction ps generalizing st with
  | nil => exact h
  | cons p ps ih =>
    rw [List.foldl_cons]
    apply ih
    unfold assignCell
    cases hfm : headerMap p.2 with
    | none => exact h
    | some field =>
      dsimp only
      split_ifs with hv
      · by_cases hef : f = field
        · subst hef
          right
          refine ⟨values.getD p.1 "", ?_, hv⟩
          rw [convertCell_required f _ hf]
          simp [setField, List.lookup]
        · have hbeq : (f == field) = false := beq_eq_false_iff_ne.mpr hef
          have hlk : List.lookup f (setField st field (convertCell field (values.getD p.1 "")))
              = List.lookup f st := by
            simp [setField, List.lookup, hbeq]
          rw [hlk]
          exact h
      · exact h

lemma buildStudent_required_lookup (headers values : List String) (f : String)
    (hf : f ∈ requiredFields) :
    List.lookup f (buildStudent headers values) = none
    ∨ ∃ v : String, List.lookup f (buildStudent headers values) = some (.str v) ∧ v ≠ "" :=
  assign_fold_required values f hf headers.enum [] (Or.inl rfl)

lemma requiredTruthy_iff_not_empty (headers values : List String) :
    requiredTruthy (buildStudent headers values) = true
      ↔ ∀ f ∈ requiredFields, ¬ FieldEmptyAfterMapping (buildStudent headers values) f := by
  unfold requiredTruthy FieldEmptyAfterMapping
  rw [List.all_eq_true]
  constructor
  · intro h f hf hemp
    rcases buildStudent_required_lookup headers values f hf with hn | ⟨v, hv, hne⟩
    · have := h f hf
      rw [hn] at this
      simp at this
    · exact hemp ⟨v, hv, hne⟩
  · intro h f hf
    have hne := h f hf
    rw [not_not] at hne
    obtain ⟨v, hv, hvne⟩ := hne
    rw [hv]
    simpa [truthyCell] using hvne

/-- C8: a data row is excluded from the produced payloads exactly when it has
fewer (trimmed, comma-split) fields than the header row, or some required field
(name, email, student_id, department) is empty after header mapping; and
dropping a row does not abort processing of the remaining rows — the rows after
it are still filtered independently. -/
theorem c8_row_exclusion (headers : List String) (line : String) (rest : List String) :
    (parseRow headers line = none
      ↔ ((line.splitOn ",").map String.trim).length < headers.length
        ∨ ∃ f ∈ requiredFields,
            FieldEmptyAfterMapping
              (buildStudent headers ((line.splitOn ",").map String.trim)) f)
    ∧ (line :: rest).filterMap (parseRow headers)
        = (parseRow headers line).toList ++ rest.filterMap (parseRow headers) := by
  constructor
  · unfold parseRow
    dsimp only
    by_cases hlen : ((line.splitOn ",").map String.trim).length < headers.length
    · rw [if_pos hlen]
      exact ⟨fun _ => Or.inl hlen, fun _ => rfl⟩
    · rw [if_neg hlen]
      have hiff := requiredTruthy_iff_not_empty headers ((line.splitOn ",").map String.trim)
      rcases hreq : requiredTruthy
          (buildStudent headers ((line.splitOn ",").map String.trim)) with _ | _
      · rw [hreq] at hiff
        have hnall : ¬ ∀ f ∈ requiredFields,
            ¬ FieldEmptyAfterMapping
              (buildStudent headers ((line.splitOn ",").map String.trim)) f := by
          intro hall
          have := hiff.mpr hall
          simp at this
        push_neg at hnall
        obtain ⟨f, hf, hemp⟩ := hnall
        simp only [hreq, Bool.false_eq_true, if_false]
        exact ⟨fun _ => Or.inr ⟨f, hf, hemp⟩, fun _ => trivial⟩
      · rw [hreq] at hiff
        have hall := hiff.mp rfl
        simp only [hreq, if_true]
        constructor
        · intro hcon
          exact absurd hcon (by simp)
        · rintro (hct | ⟨f, hf, hemp⟩)
          · exact absurd hct hlen
          · exact absurd hemp (hall f hf)
  · rcases h : parseRow headers line with _ | st <;> simp [h]

/-- C8 witness: instance at a one-column header and a row whose name field is
blank (the row is dropped while the rest is processed). -/
theorem c8_row_exclusion_witness :
    (parseRow ["name"] "" = none
      ↔ (("".splitOn ",").map String.trim).length < (["name"] : List String).length
        ∨ ∃ f ∈ requiredFields,
            FieldEmptyAfterMapping
              (buildStudent ["name"] (("".splitOn ",").map String.trim)) f)
    ∧ ("" :: ["bob"]).filterMap (parseRow ["name"])
        = (parseRow ["name"] "").toList ++ (["bob"] : List String).filterMap (parseRow ["name"]) :=
  c8_row_exclusion ["name"] "" ["bob"]

end DropoutRisk
